import Mathlib

/-!
Shallow embedding of `src/csv_file_website_to_s3_lambda.py`.

The repository is an AWS-Lambda-style handler that validates CSV telemetry
and uploads it to object storage.  The core logic is `validate_csv`
(lines 112-210 of the source); the handler `lambda_handler` (lines 27-102)
orchestrates decoding, size checking, validation, key construction and the
storage put.

Modelling decisions, all from the source:
  * Python's `csv.reader` over a `StringIO` is modelled for quote-free,
    carriage-return-free input: records are the newline-separated lines
    (a trailing newline produces no extra record), a blank line yields a
    record with zero fields, and otherwise fields are the comma-separated
    pieces of the line.  All inputs exercised by the development are of
    this quote-free form, where this model coincides with `csv.reader`.
  * `int(...)` / `float(...)` argument acceptance is modelled by the
    executable predicates `pyIntValid` / `pyFloatValid` over the ASCII
    grammar Python accepts (optional surrounding whitespace, optional
    sign, digits, and for floats an optional fraction, exponent and the
    inf/nan forms).
  * Python exceptions are modelled explicitly: the per-row loop returns a
    `LoopOut` value whose `exc` constructor carries the exception message
    (`row[0]` on an empty record raises `IndexError: list index out of
    range`), and the `try/except` of `validate_csv` maps it to a verdict.
  * In `lambda_handler`, the collaborators that are external to the
    repository are passed as explicit arguments: the base64 decoder, the
    generated session id (`generate_session_id()` hashes the wall-clock
    time) and the outcome of the S3 put.  The JSON response body is kept
    structured instead of serialised.
-/

namespace CsvLambda

/-- Lines 15-24: the expected CSV header from the client's CSVWriter. -/
def EXPECTED_HEADER : List String :=
  ["Episode", "Step", "Health", "Reward",
   "XVelocity", "YVelocity", "ZVelocity",
   "XPosition", "YPosition", "ZPosition",
   "ActionForwardWithDescription", "ActionRotateWithDescription",
   "WasAgentFrozen?", "WasNotificationShown?",
   "WasRewardDispensed?", "DispensedRewardType", "CollectedRewardType",
   "WasSpawnerButtonTriggered?", "CombinedSpawnerInfo",
   "DataZoneMessage", "ActiveCamera", "CombinedRaycastData"]

/-- Line 12: 10 MiB size cap on the uploaded payload. -/
def MAX_FILE_SIZE : Nat := 10 * 1024 * 1024

/-- Line 143: cap on the number of data rows. -/
def max_rows : Nat := 100000

/-- The whitespace characters stripped by Python's `int`/`float` before
parsing (`str.strip` whitespace, ASCII part). -/
def pySpace (c : Char) : Bool :=
  c = ' ' || c = '\t' || c = '\n' || c = '\r' || c = '\x0b' || c = '\x0c'

/-- Strip leading and trailing whitespace from a character list. -/
def stripChars (l : List Char) : List Char :=
  ((l.dropWhile pySpace).reverse.dropWhile pySpace).reverse

/-- Nonempty all-digit character list. -/
def isDigits (l : List Char) : Bool :=
  !l.isEmpty && l.all Char.isDigit

/-- Model of the strings accepted by Python's `int(...)` (ASCII form):
optional whitespace, optional sign, one or more digits. -/
def pyIntValid (s : String) : Bool :=
  match stripChars s.data with
  | '+' :: rest => isDigits rest
  | '-' :: rest => isDigits rest
  | l => isDigits l

/-- Digits with at most one decimal point, at least one digit overall. -/
def mantissaValid (l : List Char) : Bool :=
  match l.splitOn '.' with
  | [a] => isDigits a
  | [a, b] => (!a.isEmpty || !b.isEmpty) && a.all Char.isDigit && b.all Char.isDigit
  | _ => false

/-- Exponent part after the `e`/`E`: optional sign then digits. -/
def expDigits (l : List Char) : Bool :=
  match l with
  | '+' :: rest => isDigits rest
  | '-' :: rest => isDigits rest
  | _ => isDigits l

/-- Unsigned float body: `inf`/`infinity`/`nan` (case-insensitive) or a
mantissa with optional exponent. -/
def pyFloatBody (l : List Char) : Bool :=
  let lw := l.map Char.toLower
  if lw = "inf".data || lw = "infinity".data || lw = "nan".data then true
  else
    match l.span (fun c => c != 'e' && c != 'E') with
    | (m, []) => mantissaValid m
    | (m, _ :: ex) => mantissaValid m && expDigits ex

/-- Model of the strings accepted by Python's `float(...)` (ASCII form). -/
def pyFloatValid (s : String) : Bool :=
  match stripChars s.data with
  | '+' :: rest => pyFloatBody rest
  | '-' :: rest => pyFloatBody rest
  | l => pyFloatBody l

/-- Model of Python's `str.startswith`. -/
def py_startswith (s p : String) : Bool :=
  p.data.isPrefixOf s.data

/-- Lines 166-179: the numeric checks of the `try` block, in source order
with Python's left-to-right evaluation: `int(row[0])`, `int(row[1])`,
then `float` on columns 2 through 9.  The source only reaches this block
when the row has exactly 22 columns, so the wildcard is never hit there. -/
def numericOK (row : List String) : Bool :=
  match row with
  | episode :: step :: health :: reward ::
    xv :: yv :: zv :: xp :: yp :: zp :: _ =>
      pyIntValid episode && pyIntValid step &&
      pyFloatValid health && pyFloatValid reward &&
      pyFloatValid xv && pyFloatValid yv && pyFloatValid zv &&
      pyFloatValid xp && pyFloatValid yp && pyFloatValid zp
  | _ => false

/-- Lines 105-109: the validation result dictionary. -/
structure ValidationResult where
  valid : Bool
  error : Option String
  row_count : Option Nat
  deriving Repr, DecidableEq

/-- A single-quote character, used by Python's `repr` of strings. -/
def sq : String := String.singleton (Char.ofNat 39)

/-- Python's `str(list_of_strings)` as interpolated at line 162, for fields
that need no escaping: each field in single quotes, comma-space separated,
in square brackets. -/
def pyListRepr (row : List String) : String :=
  "[" ++ String.intercalate ", " (row.map (fun f => sq ++ f ++ sq)) ++ "]"

/-- Line 162: the wrong-column-count error message. -/
def colCountMsg (rowNum : Nat) (row : List String) : String :=
  "Row " ++ toString rowNum ++ ": Expected " ++ toString EXPECTED_HEADER.length ++
  " columns, got " ++ toString row.length ++ ". (" ++ pyListRepr row ++ ")"

/-- Line 183: the numeric-validation error message. -/
def numericMsg (rowNum : Nat) : String :=
  "Row " ++ toString rowNum ++ ": Invalid numeric values in required fields"

/-- Line 151: the row-cap error message. -/
def tooManyMsg : String := "Too many rows (max " ++ toString max_rows ++ ")"

/-- Outcome of the `for` loop of lines 145-185: an early `return`, an
uncaught Python exception carrying its message, or normal fall-through
with the final `row_count`. -/
inductive LoopOut where
  | ret (r : ValidationResult)
  | exc (msg : String)
  | done (rowCount : Nat)
  deriving Repr, DecidableEq

/-- Lines 145-185: the per-row loop of `validate_csv`.  `rowNum` is the
`enumerate(reader, start=2)` counter, `rowCount` the running `row_count`.
On an empty record (a blank line) `row[0]` raises `IndexError`, modelled
by `LoopOut.exc`. -/
def validateLoop (rowNum rowCount : Nat) : List (List String) → LoopOut
  | [] => .done rowCount
  | row :: rest =>
    if rowCount + 1 > max_rows then
      .ret { valid := false, error := some tooManyMsg, row_count := none }
    else if row.length ≠ EXPECTED_HEADER.length then
      match row with
      | [] => .exc "list index out of range"
      | f :: _ =>
        if py_startswith f "Positive Goals Collected" then
          validateLoop (rowNum + 1) (rowCount + 1) rest
        else
          .ret { valid := false, error := some (colCountMsg rowNum row), row_count := none }
    else
      if numericOK row then
        validateLoop (rowNum + 1) (rowCount + 1) rest
      else
        .ret { valid := false, error := some (numericMsg rowNum), row_count := none }

/-- Lines 125-210: `validate_csv` on the already-parsed record list:
header read (`next(reader, None)`), header comparison, the row loop,
the zero-row check, the success verdict, and the top-level `except`
mapping any exception to a `CSV parsing error` verdict. -/
def validate_records (records : List (List String)) : ValidationResult :=
  match records with
  | [] => { valid := false, error := some "Empty CSV file", row_count := none }
  | header :: dataRows =>
    if header ≠ EXPECTED_HEADER then
      { valid := false
        error := some ("Header mismatch. Expected " ++ toString EXPECTED_HEADER.length ++
                       " columns, got " ++ toString header.length)
        row_count := none }
    else
      match validateLoop 2 0 dataRows with
      | .ret r => r
      | .exc m =>
        { valid := false, error := some ("CSV parsing error: " ++ m), row_count := none }
      | .done rc =>
        if rc = 0 then
          { valid := false, error := some "No data rows found", row_count := none }
        else
          { valid := true, error := none, row_count := some rc }

/-- Split a character list on a separator; the result always has one more
group than there are separators. -/
def splitListOn (sep : Char) : List Char → List (List Char)
  | [] => [[]]
  | c :: cs =>
    match splitListOn sep cs with
    | [] => [[]]
    | g :: gs => if c = sep then [] :: g :: gs else (c :: g) :: gs

/-- Model of `csv.reader(io.StringIO(csv_data))` for quote-free input
without carriage returns: empty input yields no records; otherwise the
records are the newline-separated lines (a terminating newline adds no
record), a blank line is a record with zero fields, and any other line's
fields are its comma-separated pieces. -/
def splitRecords (s : String) : List (List String) :=
  if s = "" then []
  else
    let lines0 := splitListOn '\n' s.data
    let lines := if lines0.getLast? = some [] then lines0.dropLast else lines0
    lines.map (fun l => if l = [] then [] else (splitListOn ',' l).map String.mk)

/-- Lines 112-210: `validate_csv` on the raw CSV text. -/
def validate_csv (s : String) : ValidationResult :=
  validate_records (splitRecords s)

/-! ### Row predicates used in claim statements -/

/-- A data row the per-row checks accept on the main path: exactly 22
columns and the numeric fields parse. -/
def WellFormedRow (row : List String) : Prop :=
  row.length = 22 ∧ numericOK row = true

/-- A summary row: wrong column count but the first field starts with the
literal marker of line 157. -/
def SummaryRow (row : List String) : Prop :=
  row.length ≠ 22 ∧ py_startswith (row.headD "") "Positive Goals Collected" = true

/-- A row the loop lets through (well-formed, or a tolerated summary row). -/
def RowPasses (row : List String) : Prop :=
  WellFormedRow row ∨ SummaryRow row

instance (row : List String) : Decidable (WellFormedRow row) := by
  unfold WellFormedRow; infer_instance

instance (row : List String) : Decidable (SummaryRow row) := by
  unfold SummaryRow; infer_instance

instance (row : List String) : Decidable (RowPasses row) := by
  unfold RowPasses; infer_instance

/-! ### Step lemmas for the per-row loop -/

theorem length_EXPECTED_HEADER : EXPECTED_HEADER.length = 22 := rfl

theorem py_startswith_empty :
    py_startswith "" "Positive Goals Collected" = false := rfl

/-- A summary row is nonempty: the empty first field cannot start with the
marker. -/
theorem SummaryRow.ne_nil {row : List String} (h : SummaryRow row) : row ≠ [] := by
  intro hnil
  rw [hnil] at h
  exact absurd h.2 (by decide)

theorem validateLoop_nil (rn rc : Nat) : validateLoop rn rc [] = .done rc := rfl

theorem validateLoop_cap (row : List String) (rest : List (List String)) (rn rc : Nat)
    (h : rc + 1 > max_rows) :
    validateLoop rn rc (row :: rest) =
      .ret { valid := false, error := some tooManyMsg, row_count := none } := by
  simp only [validateLoop]
  rw [if_pos h]

theorem validateLoop_wf (row : List String) (rest : List (List String)) (rn rc : Nat)
    (hle : rc + 1 ≤ max_rows) (h : WellFormedRow row) :
    validateLoop rn rc (row :: rest) = validateLoop (rn + 1) (rc + 1) rest := by
  obtain ⟨h22, hnum⟩ := h
  simp only [validateLoop]
  rw [if_neg (by omega), if_neg (by rw [length_EXPECTED_HEADER]; simp [h22]), if_pos hnum]

theorem validateLoop_summary (row : List String) (rest : List (List String)) (rn rc : Nat)
    (hle : rc + 1 ≤ max_rows) (h : SummaryRow row) :
    validateLoop rn rc (row :: rest) = validateLoop (rn + 1) (rc + 1) rest := by
  obtain ⟨f, t, rfl⟩ : ∃ f t, row = f :: t := by
    cases row with
    | nil => exact absurd rfl h.ne_nil
    | cons f t => exact ⟨f, t, rfl⟩
  obtain ⟨h22, hmark⟩ := h
  simp only [List.headD_cons] at hmark
  simp only [validateLoop]
  rw [if_neg (by omega), if_pos (by rw [length_EXPECTED_HEADER]; exact h22), if_pos hmark]

theorem validateLoop_pass (row : List String) (rest : List (List String)) (rn rc : Nat)
    (hle : rc + 1 ≤ max_rows) (h : RowPasses row) :
    validateLoop rn rc (row :: rest) = validateLoop (rn + 1) (rc + 1) rest := by
  cases h with
  | inl h => exact validateLoop_wf row rest rn rc hle h
  | inr h => exact validateLoop_summary row rest rn rc hle h

theorem validateLoop_badcols (row : List String) (rest : List (List String)) (rn rc : Nat)
    (hle : rc + 1 ≤ max_rows) (h22 : row.length ≠ 22)
    (hmark : py_startswith (row.headD "") "Positive Goals Collected" = false)
    (hne : row ≠ []) :
    validateLoop rn rc (row :: rest) =
      .ret { valid := false, error := some (colCountMsg rn row), row_count := none } := by
  obtain ⟨f, t, rfl⟩ : ∃ f t, row = f :: t := by
    cases row with
    | nil => exact absurd rfl hne
    | cons f t => exact ⟨f, t, rfl⟩
  simp only [List.headD_cons] at hmark
  simp only [validateLoop]
  rw [if_neg (by omega), if_pos (by rw [length_EXPECTED_HEADER]; exact h22), if_neg (by simp [hmark])]

theorem validateLoop_empty_row (rest : List (List String)) (rn rc : Nat)
    (hle : rc + 1 ≤ max_rows) :
    validateLoop rn rc ([] :: rest) = .exc "list index out of range" := by
  simp only [validateLoop]
  rw [if_neg (by omega), if_pos (by decide)]

theorem validateLoop_numfail (row : List String) (rest : List (List String)) (rn rc : Nat)
    (hle : rc + 1 ≤ max_rows) (h22 : row.length = 22) (hnum : numericOK row = false) :
    validateLoop rn rc (row :: rest) =
      .ret { valid := false, error := some (numericMsg rn), row_count := none } := by
  simp only [validateLoop]
  rw [if_neg (by omega), if_neg (by rw [length_EXPECTED_HEADER]; simp [h22]), if_neg (by simp [hnum])]

/-! ### Global lemmas about the loop and `validate_records` -/

/-- Running the loop across a prefix of passing rows advances both
counters by the prefix length. -/
theorem validateLoop_append (pre : List (List String)) :
    ∀ (rest : List (List String)) (rn rc : Nat),
      (∀ r ∈ pre, RowPasses r) → rc + pre.length ≤ max_rows →
      validateLoop rn rc (pre ++ rest) =
        validateLoop (rn + pre.length) (rc + pre.length) rest := by
  induction pre with
  | nil => intro rest rn rc _ _; simp
  | cons row pre ih =>
    intro rest rn rc hpass hle
    have hrow : RowPasses row := hpass row (by simp)
    have hlen : (row :: pre).length = pre.length + 1 := by simp
    rw [List.cons_append,
      validateLoop_pass row (pre ++ rest) rn rc (by omega) hrow,
      ih rest (rn + 1) (rc + 1) (fun r hr => hpass r (by simp [hr])) (by omega)]
    congr 1 <;> omega

/-- A run over passing rows that stays within the cap falls through with
the row count incremented once per row. -/
theorem validateLoop_all_pass (rows : List (List String)) (rn rc : Nat)
    (hpass : ∀ r ∈ rows, RowPasses r) (hle : rc + rows.length ≤ max_rows) :
    validateLoop rn rc rows = .done (rc + rows.length) := by
  have h := validateLoop_append rows [] rn rc hpass hle
  rw [List.append_nil] at h
  rw [h, validateLoop_nil]

/-- Once the row counter would pass the cap, the loop returns the
`Too many rows` verdict (given that every row up to that point passes). -/
theorem validateLoop_capped (rows : List (List String)) :
    ∀ (rn rc : Nat), (∀ r ∈ rows, RowPasses r) → rc ≤ max_rows →
      max_rows < rc + rows.length →
      validateLoop rn rc rows =
        .ret { valid := false, error := some tooManyMsg, row_count := none } := by
  induction rows with
  | nil => intro rn rc _ hrc hgt; simp at hgt; omega
  | cons row rest ih =>
    intro rn rc hpass hrc hgt
    by_cases hcap : rc + 1 > max_rows
    · exact validateLoop_cap row rest rn rc hcap
    · rw [validateLoop_pass row rest rn rc (by omega) (hpass row (by simp))]
      exact ih (rn + 1) (rc + 1) (fun r hr => hpass r (by simp [hr])) (by omega)
        (by simp at hgt ⊢; omega)

/-- Every early `return` of the loop is an invalid verdict with a message
and no row count. -/
theorem validateLoop_ret_shape (rows : List (List String)) :
    ∀ (rn rc : Nat) (r : ValidationResult), validateLoop rn rc rows = .ret r →
      r.valid = false ∧ (∃ m, r.error = some m) ∧ r.row_count = none := by
  induction rows with
  | nil => intro rn rc r h; simp [validateLoop_nil] at h
  | cons row rest ih =>
    intro rn rc r h
    simp only [validateLoop] at h
    split at h
    · cases h; exact ⟨rfl, ⟨tooManyMsg, rfl⟩, rfl⟩
    · split at h
      · split at h
        · cases h
        · split at h
          · exact ih (rn + 1) (rc + 1) r h
          · cases h; exact ⟨rfl, ⟨_, rfl⟩, rfl⟩
      · split at h
        · exact ih (rn + 1) (rc + 1) r h
        · cases h; exact ⟨rfl, ⟨_, rfl⟩, rfl⟩

/-- Normal fall-through never decreases the counter and never leaves the
cap behind. -/
theorem validateLoop_done_bounds (rows : List (List String)) :
    ∀ (rn rc rc' : Nat), rc ≤ max_rows → validateLoop rn rc rows = .done rc' →
      rc ≤ rc' ∧ rc' ≤ max_rows := by
  induction rows with
  | nil =>
    intro rn rc rc' hrc h
    rw [validateLoop_nil] at h
    cases h
    exact ⟨le_refl _, hrc⟩
  | cons row rest ih =>
    intro rn rc rc' hrc h
    simp only [validateLoop] at h
    split at h
    · cases h
    · next hcap =>
      split at h
      · split at h
        · cases h
        · split at h
          · have := ih (rn + 1) (rc + 1) rc' (by omega) h
            omega
          · cases h
      · split at h
        · have := ih (rn + 1) (rc + 1) rc' (by omega) h
          omega
        · cases h

/-- `validate_records` on a record list whose header matches: the verdict
is determined by the loop outcome, with exceptions caught and the
zero-row check applied. -/
theorem validate_records_eq (dataRows : List (List String)) :
    validate_records (EXPECTED_HEADER :: dataRows) =
      match validateLoop 2 0 dataRows with
      | .ret r => r
      | .exc m =>
        { valid := false, error := some ("CSV parsing error: " ++ m), row_count := none }
      | .done rc =>
        if rc = 0 then
          { valid := false, error := some "No data rows found", row_count := none }
        else
          { valid := true, error := none, row_count := some rc } := by
  simp [validate_records]

/-! ### The request handler (`lambda_handler`, lines 27-102) -/

/-- The request fields the handler reads from the invocation event
(lines 41-44): each is absent or a string. -/
structure Event where
  csv_data : Option String
  encoding : Option String
  session_id : Option String
  user_id : Option String
  deriving Repr, DecidableEq

/-- The JSON response body, kept structured: either the error object of
`error_response` or the success object of lines 92-97. -/
inductive ResponseBody where
  | errBody (msg : String)
  | okBody (message : String) (s3_key : String) (row_count : Nat) (session_id : String)
  deriving Repr, DecidableEq

/-- An API-gateway response: status code and body.  The constant CORS and
content-type headers of the source are the same on every path and are
not modelled. -/
structure Response where
  statusCode : Nat
  body : ResponseBody
  deriving Repr, DecidableEq

/-- Python's f-string rendering of an optional string: `None` when the
value is absent, as in the storage key of line 67. -/
def pyStrOfOpt : Option String → String
  | none => "None"
  | some s => s

/-- Lines 224-245: `error_response`. -/
def error_response (status_code : Nat) (message : String) : Response :=
  { statusCode := status_code, body := .errBody message }

/-- Lines 27-98: `lambda_handler`.  External collaborators are explicit
arguments: `b64decode` models `base64.b64decode(..).decode('utf-8')`
(`Except.error` carries the exception message), `generated_session_id`
the value `generate_session_id()` would produce for this invocation, and
`s3_put_error` the outcome of `s3_client.put_object` (`some msg` is a
raised exception).  The `Got {event}` suffix of the missing-payload
message and the catch-all of lines 100-102 (unreachable in this model)
are not modelled. -/
def lambda_handler (b64decode : String → Except String String)
    (generated_session_id : String) (s3_put_error : Option String)
    (event : Event) : Response :=
  let encoding := event.encoding.getD "plain"
  let session_id := event.session_id.getD generated_session_id
  let user_id := event.user_id
  match event.csv_data with
  | none => error_response 400 "Missing csv_data in request body."
  | some d0 =>
    if d0 = "" then
      error_response 400 "Missing csv_data in request body."
    else
      match (if encoding = "base64" then b64decode d0 else .ok d0) with
      | .error e => error_response 400 ("Invalid base64 encoding: " ++ e)
      | .ok csv_data =>
        if csv_data.utf8ByteSize > MAX_FILE_SIZE then
          error_response 413
            ("File too large. Max size: " ++ toString MAX_FILE_SIZE ++ " bytes")
        else
          let validation_result := validate_csv csv_data
          if validation_result.valid = false then
            error_response 400 ("Invalid CSV: " ++ pyStrOfOpt validation_result.error)
          else
            let s3_key := pyStrOfOpt user_id ++ "/" ++ session_id ++ ".csv"
            match s3_put_error with
            | some e => error_response 500 ("S3 upload failed: " ++ e)
            | none =>
              { statusCode := 200
                body := .okBody "Telemetry uploaded successfully" s3_key
                  (validation_result.row_count.getD 0) session_id }

/-! ### Concrete sample data for witnesses -/

/-- A well-formed data row: integer `Episode`/`Step`, numeric columns 2-9,
arbitrary strings beyond index 9. -/
def goodRow : List String :=
  ["0", "0", "0", "0", "0", "0", "0", "0", "0", "0",
   "a", "b", "c", "d", "e", "f", "g", "h", "i", "j", "k", "l"]

/-- The header line, comma-joined. -/
def hdrLine : String := String.intercalate "," EXPECTED_HEADER

/-- The comma-joined form of `goodRow`. -/
def goodLine : String := String.intercalate "," goodRow

/-- A complete well-formed one-row CSV payload. -/
def sampleCsv : String := hdrLine ++ "\n" ++ goodLine ++ "\n"

/-- A summary row with a wrong column count. -/
def summarySample : List String := ["Positive Goals Collected: 2 of 3", "extra"]

/-- A 22-column row whose first field is the summary marker (and hence is
not an integer). -/
def markerRow22 : List String :=
  "Positive Goals Collected" :: List.replicate 21 "1"

/-- A 22-column row whose first column is not numeric. -/
def badNumericRow : List String := "x" :: List.replicate 21 "1"

/-- Shared valid-path lemma: a header-matching record list whose data rows
all pass, with between 1 and `max_rows` of them, validates with the row
count. -/
theorem validate_records_all_pass (rows : List (List String))
    (hpass : ∀ r ∈ rows, RowPasses r)
    (h1 : 1 ≤ rows.length) (h2 : rows.length ≤ max_rows) :
    validate_records (EXPECTED_HEADER :: rows) =
      { valid := true, error := none, row_count := some rows.length } := by
  rw [validate_records_eq, validateLoop_all_pass rows 2 0 hpass (by omega)]
  simp only [Nat.zero_add]
  exact if_neg (by omega)

/-! ### The claims -/

/-- C1: for CSV text whose first record is exactly the fixed 22-column
schema header and whose remaining records are N well-formed data rows
(22 columns, columns 0-1 integers, columns 2-9 floats) with
1 ≤ N ≤ 100000, `validate_csv` returns the valid verdict with
`row_count = N`. -/
theorem validate_csv_counts_wellformed_rows (s : String) (rows : List (List String))
    (hsplit : splitRecords s = EXPECTED_HEADER :: rows)
    (hwf : ∀ r ∈ rows, WellFormedRow r)
    (h1 : 1 ≤ rows.length) (h2 : rows.length ≤ max_rows) :
    validate_csv s = { valid := true, error := none, row_count := some rows.length } := by
  rw [validate_csv, hsplit]
  exact validate_records_all_pass rows (fun r hr => Or.inl (hwf r hr)) h1 h2

set_option maxRecDepth 200000 in
theorem validate_csv_counts_wellformed_rows_witness :
    validate_csv sampleCsv = { valid := true, error := none, row_count := some 1 } :=
  validate_csv_counts_wellformed_rows sampleCsv [goodRow]
    (by decide) (by decide) (by decide) (by decide)

/-- C2: with a valid header and only well-formed data rows, more than
100000 rows yields the invalid `Too many rows` verdict with no row
count (the cap is a strict exceed-by-one trigger), while exactly 100000
rows still validates. -/
theorem row_cap_strict_exceed (rows : List (List String))
    (hwf : ∀ r ∈ rows, WellFormedRow r) :
    (max_rows < rows.length →
      validate_records (EXPECTED_HEADER :: rows) =
        { valid := false, error := some tooManyMsg, row_count := none }) ∧
    (rows.length = max_rows →
      validate_records (EXPECTED_HEADER :: rows) =
        { valid := true, error := none, row_count := some max_rows }) := by
  constructor
  · intro hgt
    rw [validate_records_eq,
      validateLoop_capped rows 2 0 (fun r hr => Or.inl (hwf r hr)) (Nat.zero_le _) (by omega)]
  · intro heq
    rw [← heq]
    refine validate_records_all_pass rows (fun r hr => Or.inl (hwf r hr)) ?_ (by omega)
    have hmr : max_rows = 100000 := rfl
    omega

set_option maxRecDepth 200000 in
theorem row_cap_strict_exceed_witness :
    validate_records (EXPECTED_HEADER :: List.replicate 100001 goodRow) =
      { valid := false, error := some tooManyMsg, row_count := none } :=
  (row_cap_strict_exceed (List.replicate 100001 goodRow)
      (fun r hr => by rw [List.eq_of_mem_replicate hr]; decide)).1
    (by rw [List.length_replicate]; decide)

/-- C3: a reached data row whose column count differs from 22 and whose
first field does not start with the summary marker makes validation fail
with the message naming that row's logical row number (its position
among records, the header being row 1), the expected and actual column
counts, and the row's raw contents. -/
theorem wrong_colcount_fails_at_row (pre : List (List String)) (bad : List String)
    (post : List (List String))
    (hpre : ∀ r ∈ pre, RowPasses r) (hcap : pre.length + 1 ≤ max_rows)
    (h22 : bad.length ≠ 22)
    (hmark : py_startswith (bad.headD "") "Positive Goals Collected" = false)
    (hne : bad ≠ []) :
    validate_records (EXPECTED_HEADER :: (pre ++ bad :: post)) =
      { valid := false, error := some (colCountMsg (pre.length + 2) bad),
        row_count := none } := by
  rw [validate_records_eq, validateLoop_append pre (bad :: post) 2 0 hpre (by omega),
    validateLoop_badcols bad post (2 + pre.length) (0 + pre.length) (by omega) h22 hmark hne]
  have h2 : 2 + pre.length = pre.length + 2 := by omega
  rw [h2]

theorem wrong_colcount_fails_at_row_witness :
    validate_records (EXPECTED_HEADER :: [["a", "b"]]) =
      { valid := false, error := some (colCountMsg 2 ["a", "b"]), row_count := none } := by
  have h := wrong_colcount_fails_at_row [] ["a", "b"] []
    (by decide) (by decide) (by decide) (by decide) (by decide)
  simpa using h

/-- C4 counterexample: a 22-column data row whose first field is exactly
the marker `Positive Goals Collected` is NOT exempt from the numeric
checks — it fails them (its first column is not an integer), refuting
the claim that a marker row is accepted whatever its column count and
never causes an `Invalid numeric values` failure. -/
theorem summary_marker_row22_numeric_cex :
    py_startswith (markerRow22.headD "") "Positive Goals Collected" = true ∧
    markerRow22.length = 22 ∧
    validate_records (EXPECTED_HEADER :: [markerRow22]) =
      { valid := false, error := some (numericMsg 2), row_count := none } := by
  set_option maxRecDepth 200000 in decide

/-- C4 (amended): a data row whose first field begins with the marker is
accepted without numeric type checks only when its column count differs
from 22 — the loop then moves on to the next row, incrementing the
counter; a marker row with exactly 22 columns still undergoes the
numeric checks. -/
theorem summary_marker_skips_checks (row : List String) (rest : List (List String))
    (rn rc : Nat) (hle : rc + 1 ≤ max_rows) (h22 : row.length ≠ 22)
    (hmark : py_startswith (row.headD "") "Positive Goals Collected" = true) :
    validateLoop rn rc (row :: rest) = validateLoop (rn + 1) (rc + 1) rest :=
  validateLoop_summary row rest rn rc hle ⟨h22, hmark⟩

theorem summary_marker_skips_checks_witness :
    validateLoop 2 0 [summarySample] = LoopOut.done 1 := by
  rw [summary_marker_skips_checks summarySample [] 2 0 (by decide) (by decide) (by decide)]
  rfl

/-- C5: rows that are each either well-formed or a wrong-column-count
summary row all pass, and the summary rows are counted: the final
verdict is valid with `row_count` equal to the total number of data
rows. -/
theorem summary_rows_accepted_and_counted (rows : List (List String))
    (hpass : ∀ r ∈ rows, WellFormedRow r ∨ SummaryRow r)
    (h1 : 1 ≤ rows.length) (h2 : rows.length ≤ max_rows) :
    validate_records (EXPECTED_HEADER :: rows) =
      { valid := true, error := none, row_count := some rows.length } :=
  validate_records_all_pass rows hpass h1 h2

set_option maxRecDepth 200000 in
theorem summary_rows_accepted_and_counted_witness :
    validate_records (EXPECTED_HEADER :: [goodRow, summarySample, goodRow]) =
      { valid := true, error := none, row_count := some 3 } :=
  summary_rows_accepted_and_counted [goodRow, summarySample, goodRow]
    (by decide) (by decide) (by decide)

/-- C6: `validate_csv` is total at its interface — it always returns a
`ValidationResult` (visible in its type) — and any Python exception
arising inside validation (modelled by the loop's `exc` outcome, e.g.
the `IndexError` from `row[0]` on an empty record) is caught at the top
level and reported as an invalid verdict whose message is `CSV parsing
error: ` with the underlying exception message appended, and no row
count. -/
theorem exceptions_reported_as_parse_error (rows : List (List String)) (m : String)
    (h : validateLoop 2 0 rows = LoopOut.exc m) :
    validate_records (EXPECTED_HEADER :: rows) =
      { valid := false, error := some ("CSV parsing error: " ++ m), row_count := none } := by
  rw [validate_records_eq, h]

theorem exceptions_reported_as_parse_error_witness :
    validate_records (EXPECTED_HEADER :: [([] : List String)]) =
      { valid := false, error := some ("CSV parsing error: " ++ "list index out of range"),
        row_count := none } :=
  exceptions_reported_as_parse_error [[]] "list index out of range" (by decide)

/-- C7: every verdict of `validate_records` has exactly one of two
shapes — valid with no error and a row count N, 1 ≤ N ≤ 100000, or
invalid with an error message and no row count; never both an error
message and a row count. -/
theorem verdict_two_shapes (records : List (List String)) :
    ((validate_records records).valid = true ∧ (validate_records records).error = none ∧
      ∃ n, (validate_records records).row_count = some n ∧ 1 ≤ n ∧ n ≤ max_rows) ∨
    ((validate_records records).valid = false ∧
      (∃ m, (validate_records records).error = some m) ∧
      (validate_records records).row_count = none) := by
  cases records with
  | nil => right; exact ⟨rfl, ⟨_, rfl⟩, rfl⟩
  | cons header rows =>
    by_cases hh : header = EXPECTED_HEADER
    · subst hh
      rcases hL : validateLoop 2 0 rows with r | m | rc
      · obtain ⟨hvd, hm, hrcnt⟩ := validateLoop_ret_shape rows 2 0 r hL
        have hv : validate_records (EXPECTED_HEADER :: rows) = r := by
          simp only [validate_records_eq, hL]
        right
        rw [hv]
        exact ⟨hvd, hm, hrcnt⟩
      · have hv : validate_records (EXPECTED_HEADER :: rows) =
            { valid := false, error := some ("CSV parsing error: " ++ m),
              row_count := none } := by
          simp only [validate_records_eq, hL]
        right
        rw [hv]
        exact ⟨rfl, ⟨_, rfl⟩, rfl⟩
      · obtain ⟨h1, h2⟩ := validateLoop_done_bounds rows 2 0 rc (Nat.zero_le _) hL
        by_cases h0 : rc = 0
        · subst h0
          have hv : validate_records (EXPECTED_HEADER :: rows) =
              { valid := false, error := some "No data rows found",
                row_count := none } := by
            simp [validate_records_eq, hL]
          right
          rw [hv]
          exact ⟨rfl, ⟨_, rfl⟩, rfl⟩
        · have hv : validate_records (EXPECTED_HEADER :: rows) =
              { valid := true, error := none, row_count := some rc } := by
            simp only [validate_records_eq, hL]
            exact if_neg h0
          left
          rw [hv]
          exact ⟨rfl, rfl, ⟨rc, rfl, by omega, h2⟩⟩
    · have hv : validate_records (header :: rows) =
          { valid := false
            error := some ("Header mismatch. Expected " ++ toString EXPECTED_HEADER.length ++
                           " columns, got " ++ toString header.length)
            row_count := none } := by
        simp only [validate_records]
        rw [if_pos hh]
      right
      rw [hv]
      exact ⟨rfl, ⟨_, rfl⟩, rfl⟩

/-- C8: in a reached 22-column data row, validation fails with that row's
`Invalid numeric values` message exactly when column 0 or 1 fails
integer parsing or one of columns 2-9 fails float parsing; and the
numeric check never looks at columns with index 10 or above (rows
agreeing on their first 10 fields get the same numeric outcome whatever
comes after). -/
theorem numeric_check_characterisation (pre : List (List String)) (row : List String)
    (hpre : ∀ r ∈ pre, RowPasses r) (hcap : pre.length + 1 ≤ max_rows)
    (h22 : row.length = 22) :
    (validate_records (EXPECTED_HEADER :: (pre ++ [row])) =
        { valid := false, error := some (numericMsg (pre.length + 2)), row_count := none }
      ↔ numericOK row = false) ∧
    (∀ (c0 c1 c2 c3 c4 c5 c6 c7 c8 c9 : String) (t1 t2 : List String),
      numericOK (c0 :: c1 :: c2 :: c3 :: c4 :: c5 :: c6 :: c7 :: c8 :: c9 :: t1) =
        numericOK (c0 :: c1 :: c2 :: c3 :: c4 :: c5 :: c6 :: c7 :: c8 :: c9 :: t2)) := by
  constructor
  · cases hnum : numericOK row with
    | true =>
      have hall : ∀ r ∈ pre ++ [row], RowPasses r := by
        intro r hr
        rcases List.mem_append.1 hr with hr | hr
        · exact hpre r hr
        · rw [List.mem_singleton.1 hr]
          exact Or.inl ⟨h22, hnum⟩
      have hv := validate_records_all_pass (pre ++ [row]) hall
        (by simp) (by simp; omega)
      constructor
      · intro heq
        rw [hv] at heq
        simp at heq
      · intro hfalse
        simp at hfalse
    | false =>
      have hv : validate_records (EXPECTED_HEADER :: (pre ++ [row])) =
          { valid := false, error := some (numericMsg (pre.length + 2)),
            row_count := none } := by
        rw [validate_records_eq, validateLoop_append pre [row] 2 0 hpre (by omega),
          validateLoop_numfail row [] (2 + pre.length) (0 + pre.length) (by omega) h22 hnum]
        have h2 : 2 + pre.length = pre.length + 2 := by omega
        rw [h2]
      rw [hv]
      simp
  · intro c0 c1 c2 c3 c4 c5 c6 c7 c8 c9 t1 t2
    rfl

theorem numeric_check_characterisation_witness :
    validate_records (EXPECTED_HEADER :: [badNumericRow]) =
      { valid := false, error := some (numericMsg 2), row_count := none } := by
  have h := (numeric_check_characterisation [] badNumericRow
      (by decide) (by decide) (by decide)).1.mpr
    (by set_option maxRecDepth 200000 in decide)
  simpa using h

/-- C9: when the request omits `user_id` and validation succeeds (and the
payload passes the size gate), the handler responds 200 with a storage
key whose first segment is the literal string `None`, i.e. the key is
`None/{session_id}.csv`. -/
theorem absent_user_id_none_key (b64 : String → Except String String)
    (gen sid d : String)
    (hvalid : (validate_csv d).valid = true)
    (hsize : d.utf8ByteSize ≤ MAX_FILE_SIZE) :
    lambda_handler b64 gen none
        { csv_data := some d, encoding := none, session_id := some sid, user_id := none } =
      { statusCode := 200
        body := .okBody "Telemetry uploaded successfully" ("None/" ++ sid ++ ".csv")
          ((validate_csv d).row_count.getD 0) sid } := by
  have hne : d ≠ "" := by
    intro h0
    rw [h0] at hvalid
    exact absurd hvalid (by decide)
  have hsize' : ¬ d.utf8ByteSize > MAX_FILE_SIZE := by omega
  have hvalid' : ¬ (validate_csv d).valid = false := by simp [hvalid]
  simp [lambda_handler, hne, hsize', hvalid', pyStrOfOpt]

set_option maxRecDepth 200000 in
theorem absent_user_id_none_key_witness :
    lambda_handler (fun s => Except.ok s) "generated" none
        { csv_data := some sampleCsv, encoding := none,
          session_id := some "abc123", user_id := none } =
      { statusCode := 200
        body := .okBody "Telemetry uploaded successfully" "None/abc123.csv" 1 "abc123" } := by
  have h := absent_user_id_none_key (fun s => Except.ok s) "generated" "abc123" sampleCsv
    (by decide) (by decide)
  exact h.trans (by decide)

/-- C10: a record with zero fields in the data section — what the CSV
parser yields for a blank line — makes validation fail with the `CSV
parsing error` message produced by the caught index error on the
first-field marker inspection, and that message is never equal to any
wrong-column-count message. -/
theorem blank_record_parse_error (pre post : List (List String))
    (hpre : ∀ r ∈ pre, RowPasses r) (hcap : pre.length + 1 ≤ max_rows) :
    validate_records (EXPECTED_HEADER :: (pre ++ [] :: post)) =
        { valid := false, error := some "CSV parsing error: list index out of range",
          row_count := none } ∧
    ∀ (n : Nat) (r : List String),
      colCountMsg n r ≠ "CSV parsing error: list index out of range" := by
  constructor
  · rw [validate_records_eq, validateLoop_append pre ([] :: post) 2 0 hpre (by omega),
      validateLoop_empty_row post (2 + pre.length) (0 + pre.length) (by omega)]
    rfl
  · intro n r h
    have h2 := congrArg (fun s => s.data.headD ' ') h
    dsimp only at h2
    have hR : (colCountMsg n r).data.headD ' ' = 'R' := rfl
    rw [hR] at h2
    exact absurd h2 (by decide)

set_option maxRecDepth 200000 in
theorem blank_record_parse_error_witness :
    validate_records (EXPECTED_HEADER :: [goodRow, []]) =
      { valid := false, error := some "CSV parsing error: list index out of range",
        row_count := none } :=
  (blank_record_parse_error [goodRow] [] (by decide) (by decide)).1

end CsvLambda
